import Mathlib

/-!
Verification of `xcursor_extractor.c` against its specification.

The pixel transform `separate_alpha_pixel` (source lines 244-283) is embedded
as a function on `Nat` representing the packed 32-bit `XcursorPixel`; the
little-endian compiled variant and the big-endian compiled variant are both
embedded, since the source selects between them with `#if __BYTE_ORDER`.
The control flow of `extract_cursor_frames` (lines 63-148) and `main`
(lines 30-61) is embedded with the external effects (fopen, XcursorFileLoad,
per-frame PNG save) abstracted as an environment of oracles, so that the
error-handling claims can be stated about which files get written and which
result code is returned.
-/

/-- Source lines 268-270: one channel of the premultiplied-alpha separation,
`(channel * 255 + alpha / 2) / alpha` in C unsigned integer arithmetic
(all intermediate values fit in `unsigned int`, so plain `Nat` arithmetic
is exact). -/
def unpremul_channel (c a : Nat) : Nat := (c * 255 + a / 2) / a

/-- Source lines 273-275: `if (x > 255) x = 255;` applied to each channel. -/
def clamp255 (x : Nat) : Nat := if x > 255 then 255 else x

/-- `separate_alpha_pixel` (source lines 244-283) as compiled on a
little-endian host: decompose bits 0-7 as blue, 8-15 green, 16-23 red,
24-31 alpha (lines 250-253); return 0 when alpha is 0 (lines 262-265);
otherwise unpremultiply and clamp each color channel (lines 268-275) and
repack in the same layout (line 279). -/
def separate_alpha_pixel (pixel : Nat) : Nat :=
  let blue := pixel &&& 0xFF
  let green := (pixel >>> 8) &&& 0xFF
  let red := (pixel >>> 16) &&& 0xFF
  let alpha := (pixel >>> 24) &&& 0xFF
  if alpha = 0 then 0
  else
    let red := clamp255 (unpremul_channel red alpha)
    let green := clamp255 (unpremul_channel green alpha)
    let blue := clamp255 (unpremul_channel blue alpha)
    blue ||| (green <<< 8) ||| (red <<< 16) ||| (alpha <<< 24)

/-- `separate_alpha_pixel` as compiled on a big-endian host (the `#else`
branches, source lines 255-258 and 281): bits 0-7 are read as alpha,
8-15 red, 16-23 green, 24-31 blue, and the repack uses that same layout. -/
def separate_alpha_pixel_bigEndian (pixel : Nat) : Nat :=
  let alpha := pixel &&& 0xFF
  let red := (pixel >>> 8) &&& 0xFF
  let green := (pixel >>> 16) &&& 0xFF
  let blue := (pixel >>> 24) &&& 0xFF
  if alpha = 0 then 0
  else
    let red := clamp255 (unpremul_channel red alpha)
    let green := clamp255 (unpremul_channel green alpha)
    let blue := clamp255 (unpremul_channel blue alpha)
    alpha ||| (red <<< 8) ||| (green <<< 16) ||| (blue <<< 24)

/-- Pack alpha, red, green, blue channels into the host-order ARGB layout
used by the little-endian branches (blue in bits 0-7, green 8-15, red 16-23,
alpha 24-31), mirroring source line 279. -/
def pack_argb (a r g b : Nat) : Nat :=
  b ||| (g <<< 8) ||| (r <<< 16) ||| (a <<< 24)

/-- The alpha channel of a packed pixel, bits 24-31 (source line 253). -/
def alpha_of (p : Nat) : Nat := (p >>> 24) &&& 0xFF

/-- Environment of external effects seen by `extract_cursor_frames`
(source lines 63-148): whether `fopen` of the input succeeds (line 74),
whether `XcursorFileLoad` succeeds (line 81), the loaded `images` pointer
abstracted to `none` (NULL) or `some n` with `n` = `nimage` (line 89),
whether `fopen` of `cursor_info.txt` succeeds (line 100), and for each
0-based frame index whether `save_frame_as_png` succeeds (line 131). -/
structure ExtractEnv where
  fopen_ok : Bool
  load_ok : Bool
  images : Option Nat
  info_fopen_ok : Bool
  save_ok : Nat → Bool

/-- Observable outcome of `extract_cursor_frames`: the returned result code,
whether the manifest `cursor_info.txt` was written (lines 100-125), and the
0-based indices of the frames written by `save_frame_as_png`, in order
(lines 128-141). -/
structure ExtractOutcome where
  result : Nat
  manifest_written : Bool
  frames_written : List Nat
  deriving DecidableEq, Repr

/-- The frame-saving loop, source lines 128-141: for `n` remaining frames
starting at 0-based index `i`, try to save each in order; on the first
failure return result 1 immediately (lines 131-136), keeping the frames
already saved; return 0 after saving all (line 147). -/
def save_loop (save : Nat → Bool) : Nat → Nat → Nat × List Nat
  | 0, _ => (0, [])
  | Nat.succ m, i =>
    if save i then
      let rest := save_loop save m (i + 1)
      (rest.1, i :: rest.2)
    else (1, [])

/-- `extract_cursor_frames` (source lines 63-148) over the effect
environment: return 1 if the input cannot be opened (lines 74-78), if
`XcursorFileLoad` fails (lines 81-85), or if `images` is NULL or holds zero
frames (lines 89-94); otherwise write the manifest only when its `fopen`
succeeded (lines 100-125, no error path), then run the frame loop. -/
def extract_cursor_frames (env : ExtractEnv) : ExtractOutcome :=
  if ¬ env.fopen_ok then ⟨1, false, []⟩
  else if ¬ env.load_ok then ⟨1, false, []⟩
  else
    match env.images with
    | none => ⟨1, false, []⟩
    | some n =>
      if n = 0 then ⟨1, false, []⟩
      else
        let loop := save_loop env.save_ok n 0
        ⟨loop.1, env.info_fopen_ok, loop.2⟩

/-- Environment seen by `main` (source lines 30-61): whether `argc == 3`
(line 32), whether `access(input, R_OK)` succeeds (line 41), whether
`create_directory` succeeds (line 48), and the environment for
`extract_cursor_frames`. -/
structure MainEnv where
  argc_ok : Bool
  access_ok : Bool
  mkdir_ok : Bool
  ext : ExtractEnv

/-- The process exit code computed by `main` (source lines 30-61): 1 on a
usage, access, or mkdir failure, otherwise the result of
`extract_cursor_frames` (lines 54-60). -/
def main_result (env : MainEnv) : Nat :=
  if ¬ env.argc_ok then 1
  else if ¬ env.access_ok then 1
  else if ¬ env.mkdir_ok then 1
  else (extract_cursor_frames env.ext).result

/-! ### Arithmetic bridge lemmas for the packed-pixel layout -/

lemma and_255_eq_mod (x : Nat) : x &&& 255 = x % 256 := by
  have h := Nat.and_pow_two_sub_one_eq_mod x 8
  norm_num at h
  exact h

lemma and_255_le (x : Nat) : x &&& 255 ≤ 255 := @Nat.and_le_right x 255

lemma clamp255_le (x : Nat) : clamp255 x ≤ 255 := by
  simp only [clamp255]
  split <;> omega

lemma clamp255_of_le (x : Nat) (h : x ≤ 255) : clamp255 x = x := by
  simp only [clamp255]
  rw [if_neg (by omega : ¬ x > 255)]

lemma pack_argb_eq_add (a r g b : Nat) (hr : r < 256) (hg : g < 256) (hb : b < 256) :
    pack_argb a r g b = b + g * 256 + r * 65536 + a * 16777216 := by
  have e1 : b ||| g <<< 8 = 2 ^ 8 * g + b := by
    rw [Nat.shiftLeft_eq, Nat.lor_comm, Nat.mul_comm g (2 ^ 8)]
    exact (Nat.mul_add_lt_is_or (hb.trans_eq (by norm_num)) g).symm
  have e2 : b ||| g <<< 8 ||| r <<< 16 = 2 ^ 16 * r + (2 ^ 8 * g + b) := by
    rw [e1, Nat.shiftLeft_eq, Nat.lor_comm, Nat.mul_comm r (2 ^ 16)]
    refine (Nat.mul_add_lt_is_or ?_ r).symm
    norm_num
    omega
  have e3 : pack_argb a r g b = 2 ^ 24 * a + (2 ^ 16 * r + (2 ^ 8 * g + b)) := by
    rw [pack_argb, e2, Nat.shiftLeft_eq, Nat.lor_comm, Nat.mul_comm a (2 ^ 24)]
    refine (Nat.mul_add_lt_is_or ?_ a).symm
    norm_num
    omega
  rw [e3]
  norm_num
  ring

lemma unpack_blue (a r g b : Nat) (hr : r < 256) (hg : g < 256) (hb : b < 256) :
    pack_argb a r g b &&& 255 = b := by
  rw [pack_argb_eq_add a r g b hr hg hb, and_255_eq_mod]
  omega

lemma unpack_green (a r g b : Nat) (hr : r < 256) (hg : g < 256) (hb : b < 256) :
    (pack_argb a r g b >>> 8) &&& 255 = g := by
  rw [pack_argb_eq_add a r g b hr hg hb, Nat.shiftRight_eq_div_pow, and_255_eq_mod]
  norm_num
  omega

lemma unpack_red (a r g b : Nat) (hr : r < 256) (hg : g < 256) (hb : b < 256) :
    (pack_argb a r g b >>> 16) &&& 255 = r := by
  rw [pack_argb_eq_add a r g b hr hg hb, Nat.shiftRight_eq_div_pow, and_255_eq_mod]
  norm_num
  omega

lemma unpack_alpha (a r g b : Nat) (ha : a < 256) (hr : r < 256) (hg : g < 256)
    (hb : b < 256) : alpha_of (pack_argb a r g b) = a := by
  rw [alpha_of, pack_argb_eq_add a r g b hr hg hb, Nat.shiftRight_eq_div_pow,
    and_255_eq_mod]
  norm_num
  omega

lemma repack_self (p : Nat) (hp : p < 4294967296) :
    pack_argb ((p >>> 24) &&& 255) ((p >>> 16) &&& 255) ((p >>> 8) &&& 255)
      (p &&& 255) = p := by
  rw [pack_argb_eq_add _ _ _ _ (by have := and_255_le (p >>> 16); omega)
    (by have := and_255_le (p >>> 8); omega) (by have := and_255_le p; omega)]
  simp only [and_255_eq_mod, Nat.shiftRight_eq_div_pow]
  norm_num
  omega

/-! ### Behaviour of the pixel transform on decomposed pixels -/

lemma separate_apply (p : Nat) (hne : ¬ ((p >>> 24) &&& 255 = 0)) :
    separate_alpha_pixel p =
      clamp255 (unpremul_channel (p &&& 255) ((p >>> 24) &&& 255)) |||
        clamp255 (unpremul_channel ((p >>> 8) &&& 255) ((p >>> 24) &&& 255)) <<< 8 |||
        clamp255 (unpremul_channel ((p >>> 16) &&& 255) ((p >>> 24) &&& 255)) <<< 16 |||
        ((p >>> 24) &&& 255) <<< 24 := by
  simp only [separate_alpha_pixel]
  rw [if_neg hne]

lemma separate_pack (a r g b : Nat) (ha : a < 256) (hr : r < 256) (hg : g < 256)
    (hb : b < 256) (hne : a ≠ 0) :
    separate_alpha_pixel (pack_argb a r g b) =
      pack_argb a (clamp255 (unpremul_channel r a)) (clamp255 (unpremul_channel g a))
        (clamp255 (unpremul_channel b a)) := by
  have hA : (pack_argb a r g b >>> 24) &&& 255 = a := unpack_alpha a r g b ha hr hg hb
  rw [separate_apply (pack_argb a r g b) (by rw [hA]; exact hne)]
  rw [hA, unpack_blue a r g b hr hg hb, unpack_green a r g b hr hg hb,
    unpack_red a r g b hr hg hb]
  rfl

lemma unpremul_self (a : Nat) (h : a ≠ 0) : unpremul_channel a a = 255 := by
  have ha : 0 < a := Nat.pos_of_ne_zero h
  rw [unpremul_channel, Nat.add_comm, Nat.add_mul_div_left _ _ ha,
    Nat.div_eq_of_lt (Nat.div_lt_self ha one_lt_two)]

lemma unpremul_alpha255 (c : Nat) : unpremul_channel c 255 = c := by
  rw [unpremul_channel, Nat.mul_comm c 255, Nat.add_comm,
    (by norm_num : (255:Nat) / 2 = 127),
    Nat.add_mul_div_left _ _ (by norm_num : (0:Nat) < 255)]
  norm_num

/-! ### Claims about the alpha-unpremultiply transform -/

/-- C1: for every packed ARGB pixel with alpha a not 0, separate_alpha_pixel
computes each output color channel from input channel c as the round-half-up
integer quotient (c * 255 + a / 2) / a, clamps it to [0, 255], and repacks
the result with the same channel layout used for decomposition. -/
theorem C1_unpremultiply_formula (a r g b : Nat) (ha : a < 256) (hr : r < 256)
    (hg : g < 256) (hb : b < 256) (hne : a ≠ 0) :
    separate_alpha_pixel (pack_argb a r g b) =
      pack_argb a (clamp255 (unpremul_channel r a)) (clamp255 (unpremul_channel g a))
        (clamp255 (unpremul_channel b a)) :=
  separate_pack a r g b ha hr hg hb hne

/-- Witness for C1 at the concrete pixel a=128, r=64, g=32, b=16. -/
theorem C1_unpremultiply_formula_witness :
    (128:Nat) ≠ 0 ∧
      separate_alpha_pixel (pack_argb 128 64 32 16) =
        pack_argb 128 (clamp255 (unpremul_channel 64 128))
          (clamp255 (unpremul_channel 32 128)) (clamp255 (unpremul_channel 16 128)) :=
  ⟨by decide, C1_unpremultiply_formula 128 64 32 16 (by decide) (by decide) (by decide)
    (by decide) (by decide)⟩

/-- C2: every pixel whose alpha channel (bits 24-31) is 0 is mapped to the
all-zero pixel, regardless of the r, g, b channels of the input. -/
theorem C2_zero_alpha_maps_to_zero (p : Nat) (ha : alpha_of p = 0) :
    separate_alpha_pixel p = 0 := by
  have ha' : (p >>> 24) &&& 255 = 0 := ha
  simp only [separate_alpha_pixel]
  rw [if_pos ha']

/-- Witness for C2 at the concrete pixel 0x00ABCDEF (alpha 0, nonzero color
channels). -/
theorem C2_zero_alpha_maps_to_zero_witness :
    alpha_of 11259375 = 0 ∧ separate_alpha_pixel 11259375 = 0 :=
  ⟨by decide, C2_zero_alpha_maps_to_zero 11259375 (by decide)⟩

/-- C3: for every alpha a in [1, 255], the fully saturated premultiplied pixel
with r = g = b = a is mapped to the pixel with r = g = b = 255 and alpha still
a. -/
theorem C3_saturated_roundtrip (a : Nat) (h1 : 1 ≤ a) (h2 : a ≤ 255) :
    separate_alpha_pixel (pack_argb a a a a) = pack_argb a 255 255 255 := by
  have hne : a ≠ 0 := by omega
  rw [separate_pack a a a a (by omega) (by omega) (by omega) (by omega) hne,
    unpremul_self a hne]
  rfl

/-- Witness for C3 at the concrete alpha a = 77. -/
theorem C3_saturated_roundtrip_witness :
    (1 ≤ 77 ∧ 77 ≤ 255) ∧
      separate_alpha_pixel (pack_argb 77 77 77 77) = pack_argb 77 255 255 255 :=
  ⟨⟨by decide, by decide⟩, C3_saturated_roundtrip 77 (by decide) (by decide)⟩

/-- C4: separate_alpha_pixel is the identity on every 32-bit pixel whose alpha
channel equals 255: the output equals the input bit for bit. -/
theorem C4_identity_at_alpha255 (p : Nat) (hp : p < 4294967296)
    (ha : alpha_of p = 255) : separate_alpha_pixel p = p := by
  have ha' : (p >>> 24) &&& 255 = 255 := ha
  rw [separate_apply p (by rw [ha']; omega), ha',
    unpremul_alpha255 (p &&& 255), unpremul_alpha255 ((p >>> 8) &&& 255),
    unpremul_alpha255 ((p >>> 16) &&& 255),
    clamp255_of_le _ (and_255_le p), clamp255_of_le _ (and_255_le (p >>> 8)),
    clamp255_of_le _ (and_255_le (p >>> 16))]
  have h := repack_self p hp
  rw [ha'] at h
  simp only [pack_argb] at h
  exact h

/-- Witness for C4 at the concrete pixel 0xFF804020. -/
theorem C4_identity_at_alpha255_witness :
    (4286595104 < 4294967296 ∧ alpha_of 4286595104 = 255) ∧
      separate_alpha_pixel 4286595104 = 4286595104 :=
  ⟨⟨by decide, by decide⟩, C4_identity_at_alpha255 4286595104 (by decide) (by decide)⟩

/-- C5: under the premultiplied-input precondition (channel c at most alpha a,
alpha nonzero), the intermediate quotient (c * 255 + a / 2) / a never exceeds
255, so the clamp-to-255 step is a no-op. -/
theorem C5_clamp_is_noop (c a : Nat) (hne : a ≠ 0) (ha : a ≤ 255) (hc : c ≤ a) :
    unpremul_channel c a ≤ 255 ∧
      clamp255 (unpremul_channel c a) = unpremul_channel c a := by
  have hb : unpremul_channel c a ≤ unpremul_channel a a := by
    rw [unpremul_channel, unpremul_channel]
    exact Nat.div_le_div_right (by omega)
  rw [unpremul_self a hne] at hb
  exact ⟨hb, clamp255_of_le _ hb⟩

/-- Witness for C5 at the concrete channel c = 100, alpha a = 200. -/
theorem C5_clamp_is_noop_witness :
    ((200:Nat) ≠ 0 ∧ 200 ≤ 255 ∧ 100 ≤ 200) ∧
      unpremul_channel 100 200 ≤ 255 ∧
        clamp255 (unpremul_channel 100 200) = unpremul_channel 100 200 :=
  ⟨⟨by decide, by decide, by decide⟩,
    C5_clamp_is_noop 100 200 (by decide) (by decide) (by decide)⟩

/-- C6: the little-endian-compiled and big-endian-compiled variants of
separate_alpha_pixel do NOT compute the same function on packed uint32 pixel
values: at the input 0x00000001 the little-endian variant returns 0 while the
big-endian variant returns 1. This evaluates the code at the failing input of
the cross-platform bit-identical-output claim. -/
theorem C6_endian_variants_differ :
    separate_alpha_pixel 1 = 0 ∧ separate_alpha_pixel_bigEndian 1 = 1 ∧
      separate_alpha_pixel 1 ≠ separate_alpha_pixel_bigEndian 1 := by
  refine ⟨by decide, by decide, by decide⟩

/-- C9: the alpha channel (bits 24-31) of the pixel returned by
separate_alpha_pixel always equals the alpha channel of the input pixel,
including when the input alpha is 0. -/
theorem C9_alpha_channel_preserved (p : Nat) :
    alpha_of (separate_alpha_pixel p) = alpha_of p := by
  by_cases h : (p >>> 24) &&& 255 = 0
  · simp only [separate_alpha_pixel]
    rw [if_pos h]
    simp only [alpha_of]
    rw [h]
    decide
  · rw [separate_apply p h]
    have hmask : (p >>> 24) &&& 255 < 256 := by have := and_255_le (p >>> 24); omega
    have hc : ∀ x : Nat, clamp255 x < 256 := fun x => by have := clamp255_le x; omega
    have := unpack_alpha ((p >>> 24) &&& 255)
      (clamp255 (unpremul_channel ((p >>> 16) &&& 255) ((p >>> 24) &&& 255)))
      (clamp255 (unpremul_channel ((p >>> 8) &&& 255) ((p >>> 24) &&& 255)))
      (clamp255 (unpremul_channel (p &&& 255) ((p >>> 24) &&& 255)))
      hmask (hc _) (hc _) (hc _)
    simp only [pack_argb] at this
    rw [this]
    rfl

/-! ### Claims about the extraction control flow -/

lemma save_loop_first_fail (save : Nat → Bool) (i : Nat) (hfail : save i = false) :
    ∀ n s, s ≤ i → i < s + n → (∀ j, s ≤ j → j < i → save j = true) →
      save_loop save n s = (1, List.range' s (i - s)) := by
  intro n
  induction n with
  | zero => intro s h1 h2 h3; omega
  | succ m ih =>
    intro s h1 h2 h3
    by_cases hs : s = i
    · subst hs
      simp only [save_loop, hfail]
      simp
    · have hsave : save s = true := h3 s (le_refl s) (by omega)
      simp only [save_loop, hsave, if_true]
      rw [ih (s + 1) (by omega) (by omega) (fun j hj1 hj2 => h3 j (by omega) hj2)]
      rw [(by omega : i - s = (i - (s + 1)) + 1), List.range'_succ s (i - (s + 1)) 1]

/-- C7: when all external steps up to the frame loop succeed and
save_frame_as_png first fails at 0-based frame index i, the extraction aborts
immediately with result 1: exactly the frames before i have been written, no
frame after i is written, and the process exit code is 1. -/
theorem C7_first_save_failure_aborts (m : MainEnv) (n i : Nat)
    (hargc : m.argc_ok = true) (hacc : m.access_ok = true) (hmk : m.mkdir_ok = true)
    (hfo : m.ext.fopen_ok = true) (hld : m.ext.load_ok = true)
    (him : m.ext.images = some n) (hi : i < n)
    (hfail : m.ext.save_ok i = false) (hok : ∀ j, j < i → m.ext.save_ok j = true) :
    (extract_cursor_frames m.ext).result = 1 ∧
      (extract_cursor_frames m.ext).frames_written = List.range i ∧
      main_result m = 1 := by
  have hloop := save_loop_first_fail m.ext.save_ok i hfail n 0 (Nat.zero_le i)
    (by omega) (fun j hj1 hj2 => hok j hj2)
  have hex : extract_cursor_frames m.ext =
      ⟨1, m.ext.info_fopen_ok, List.range' 0 (i - 0)⟩ := by
    simp only [extract_cursor_frames, hfo, hld, him]
    rw [if_neg (by omega : ¬ n = 0)]
    simp only [hloop]
    norm_num
  have hrange : List.range' 0 (i - 0) = List.range i := by
    rw [Nat.sub_zero, List.range_eq_range' i]
  have hmain : main_result m = 1 := by
    simp only [main_result, hargc, hacc, hmk, hex]
    norm_num
  rw [hex, hrange]
  exact ⟨rfl, rfl, hmain⟩

/-- Witness for C7: three frames, saving fails at 0-based index 1; only frame
0 is written and the run fails. -/
theorem C7_first_save_failure_aborts_witness :
    ((1:Nat) < 3 ∧ (fun j => j != 1) 1 = false) ∧
      (extract_cursor_frames ⟨true, true, some 3, true, fun j => j != 1⟩).result = 1 ∧
        (extract_cursor_frames ⟨true, true, some 3, true, fun j => j != 1⟩).frames_written =
          List.range 1 ∧
        main_result ⟨true, true, true, ⟨true, true, some 3, true, fun j => j != 1⟩⟩ = 1 :=
  ⟨⟨by decide, by decide⟩,
    C7_first_save_failure_aborts
      ⟨true, true, true, ⟨true, true, some 3, true, fun j => j != 1⟩⟩ 3 1
      rfl rfl rfl rfl rfl rfl (by decide) (by decide) (by decide)⟩

/-- C8 counterexample: a run in which cursor_info.txt cannot be created
(info_fopen_ok = false) but both frames save fine ends with the manifest
unwritten and exit code 0, refuting the claim that such a run reports the
error and exits nonzero. -/
theorem C8_counterexample_manifest_failure_exits_zero :
    (extract_cursor_frames ⟨true, true, some 2, false, fun _ => true⟩).manifest_written
        = false ∧
      main_result ⟨true, true, true, ⟨true, true, some 2, false, fun _ => true⟩⟩ = 0 := by
  refine ⟨by decide, by decide⟩

lemma extract_result_ignores_info (f l : Bool) (im : Option Nat) (s : Nat → Bool)
    (i1 i2 : Bool) :
    (extract_cursor_frames ⟨f, l, im, i1, s⟩).result =
      (extract_cursor_frames ⟨f, l, im, i2, s⟩).result := by
  cases f <;> cases l <;> cases im <;> try rfl
  all_goals (rename_i n; by_cases hn : n = 0 <;> simp [extract_cursor_frames, hn])

lemma extract_manifest_needs_info (f l : Bool) (im : Option Nat) (s : Nat → Bool) :
    (extract_cursor_frames ⟨f, l, im, false, s⟩).manifest_written = false := by
  cases f <;> cases l <;> cases im <;> try rfl
  all_goals (rename_i n; by_cases hn : n = 0 <;> simp [extract_cursor_frames, hn])

/-- C8 amended: failure to create cursor_info.txt is silently ignored: the
manifest is simply not written, and the result code of the extraction (hence
the exit code) is exactly what it would have been had the manifest been
created. -/
theorem C8_manifest_failure_silently_ignored (f l : Bool) (im : Option Nat)
    (s : Nat → Bool) :
    (extract_cursor_frames ⟨f, l, im, false, s⟩).result =
        (extract_cursor_frames ⟨f, l, im, true, s⟩).result ∧
      (extract_cursor_frames ⟨f, l, im, false, s⟩).manifest_written = false :=
  ⟨extract_result_ignores_info f l im s false true, extract_manifest_needs_info f l im s⟩

/-- C10: when the input opens and loads but the image list is NULL or holds
zero frames, extract_cursor_frames returns 1 having written no frame files
and no manifest, and the process exit code is 1. -/
theorem C10_zero_frames_is_failure (m : MainEnv)
    (hargc : m.argc_ok = true) (hacc : m.access_ok = true) (hmk : m.mkdir_ok = true)
    (hfo : m.ext.fopen_ok = true) (hld : m.ext.load_ok = true)
    (him : m.ext.images = none ∨ m.ext.images = some 0) :
    extract_cursor_frames m.ext = ⟨1, false, []⟩ ∧ main_result m = 1 := by
  have hex : extract_cursor_frames m.ext = ⟨1, false, []⟩ := by
    rcases him with h | h <;> simp [extract_cursor_frames, hfo, hld, h]
  refine ⟨hex, ?_⟩
  simp only [main_result, hargc, hacc, hmk, hex]
  norm_num

/-- Witness for C10: a structurally valid load that yields zero frames. -/
theorem C10_zero_frames_is_failure_witness :
    ((some 0 : Option Nat) = none ∨ (some 0 : Option Nat) = some 0) ∧
      extract_cursor_frames ⟨true, true, some 0, true, fun _ => true⟩ =
          ⟨1, false, []⟩ ∧
        main_result ⟨true, true, true, ⟨true, true, some 0, true, fun _ => true⟩⟩ = 1 :=
  ⟨Or.inr rfl,
    C10_zero_frames_is_failure
      ⟨true, true, true, ⟨true, true, some 0, true, fun _ => true⟩⟩
      rfl rfl rfl rfl rfl (Or.inr rfl)⟩

